import Mathlib

/-!
Verification of the periodic real-time video task in src/base_task.c.

The development shallowly embeds the program: the producer of demuxed
packets is a list consumed by av_read_frame, the liblitmus boundary is an
environment of return values, and each region of main together with the
job function becomes an executable Lean function that also records the
observable events (reads, decodes, scale calls, period waits, mode
transitions) in a trace.
-/

namespace BaseTask

/-- One demuxed packet of the input, as av_read_frame returns it in
base_task.c: the stream index it belongs to, and whether
avcodec_decode_video2 reports a finished frame for it (the frameFinished
out-parameter being nonzero). -/
structure Packet where
  stream_index : Int
  finishes : Bool
  deriving DecidableEq

/-- Observable actions of one invocation of job in base_task.c lines
215-234: an av_read_frame request, an avcodec_decode_video2 call, an
sws_scale call carrying the conversion-context argument it receives
(none models a NULL pointer), and an av_free_packet call. -/
inductive JobEvent where
  | readFrame
  | decode
  | scale (ctx : Option Unit)
  | freePacket
  deriving DecidableEq

/-- The static global SwsContext pointer of base_task.c line 54. It is
initialized to NULL and no statement of the file ever assigns it, so its
value is none throughout the run. -/
def img_convert_ctx : Option Unit := none

/-- Loop-body events for one packet (base_task.c lines 220-229): if the
packet belongs to the selected video stream it is decoded, and if the
decode finishes a frame then sws_scale is called with the global
img_convert_ctx; the packet is then freed. -/
def packetEvents (vsi : Int) (p : Packet) : List JobEvent :=
  if p.stream_index == vsi then
    if p.finishes then
      [JobEvent.decode, JobEvent.scale img_convert_ctx, JobEvent.freePacket]
    else
      [JobEvent.decode, JobEvent.freePacket]
  else
    [JobEvent.freePacket]

/-- How much the loop counter i of job advances for one packet: the
for-update increments it once, and a finished frame increments it once
more inside the body (base_task.c line 223). -/
def stepDec (vsi : Int) (p : Packet) : Nat :=
  if p.stream_index == vsi && p.finishes then 2 else 1

/-- The for-loop of job (base_task.c line 219), indexed by the number of
remaining admitted iterations rem = ind + 10 - i. Evaluating the loop
condition calls av_read_frame first: a read is issued even when i has
already reached ind + 10, and that extra packet is consumed without being
freed. The result is the emitted events and the packets still unread. -/
def jobLoop (vsi : Int) : Nat → List Packet → List JobEvent × List Packet
  | _, [] => ([JobEvent.readFrame], [])
  | 0, _ :: rest => ([JobEvent.readFrame], rest)
  | Nat.succ rem, p :: rest =>
      let next := jobLoop vsi (Nat.succ rem - stepDec vsi p) rest
      (JobEvent.readFrame :: (packetEvents vsi p ++ next.1), next.2)

/-- The globals job touches, plus the unread input. The field ind is the
global of base_task.c line 55; the field index models the distinct counter
that the statement on line 231 increments, which is not the same variable
as ind; vsi is the selected stream index. -/
structure JobState where
  packets : List Packet
  ind : Int
  index : Int
  vsi : Int

/-- Result of one invocation of job: emitted events, remaining input,
the two counters afterwards, and the C return value. -/
structure JobResult where
  events : List JobEvent
  packets : List Packet
  ind : Int
  index : Int
  ret : Int

/-- One invocation of job (base_task.c lines 215-234): i starts at ind, so
the remaining-iteration budget ind + 10 - i is 10 whatever ind holds; the
loop runs, then index is increased by 10, and the function returns 0 on
its only path (line 233, under the source comment saying not to exit). -/
def job (s : JobState) : JobResult :=
  let r := jobLoop s.vsi 10 s.packets
  ⟨r.1, r.2, s.ind, s.index + 10, 0⟩

/-- The job state reached after one invocation of job. -/
def jobNext (s : JobState) : JobState :=
  ⟨(job s).packets, (job s).ind, (job s).index, s.vsi⟩

def isRead : JobEvent → Bool
  | JobEvent.readFrame => true
  | _ => false

/-- Number of av_read_frame requests in a job trace. -/
def readCount (t : List JobEvent) : Nat := t.countP isRead

def isScale : JobEvent → Bool
  | JobEvent.scale _ => true
  | _ => false

/-- Number of sws_scale calls in a job trace, i.e. frames processed. -/
def scaleCount (t : List JobEvent) : Nat := t.countP isScale

/-- Observable actions of the real-time section of main (base_task.c lines
160-212). Each liblitmus call made through the CALL macro records the
return value the environment gave it; CALL only prints a diagnostic and
never alters control flow. -/
inductive RtEvent where
  | callInit (ret : Int)
  | callSetParam (ret : Int)
  | callTaskModeRT (ret : Int)
  | sleepNextPeriod
  | jobRun (ret : Int)
  | callTaskModeBG (ret : Int)
  | cleanup
  deriving DecidableEq

/-- Environment of the real-time section: the return values the external
liblitmus calls produce, the selected stream index, and the packets the
producer will yield before end-of-stream. -/
structure RtEnv where
  initRet : Int
  setParamRet : Int
  modeRTRet : Int
  modeBGRet : Int
  vsi : Int
  packets : List Packet

/-- The do-while loop of main (base_task.c lines 186-191), bounded by
fuel: each iteration calls sleep_next_period and then invokes job, and the
loop exits when job returns nonzero. The result is the events of the
iterations performed, whether the loop exited within fuel iterations, and
the final job state. -/
def rtLoop : Nat → JobState → List RtEvent × Bool × JobState
  | 0, s => ([], false, s)
  | Nat.succ fuel, s =>
      let jr := job s
      let s2 : JobState := ⟨jr.packets, jr.ind, jr.index, s.vsi⟩
      if jr.ret ≠ 0 then
        ([RtEvent.sleepNextPeriod, RtEvent.jobRun jr.ret], true, s2)
      else
        let rest := rtLoop fuel s2
        (RtEvent.sleepNextPeriod :: RtEvent.jobRun jr.ret :: rest.1, rest.2.1, rest.2.2)

/-- The real-time section of main (base_task.c lines 160-212): the CALL of
init_litmus, of set_rt_task_param, and of task_mode(LITMUS_RT_TASK), then
the job loop, and, only if the loop ever exits, the CALL of
task_mode(BACKGROUND_TASK), the cleanup, and return 0. An exit status of
none means the section has not returned within fuel loop iterations. -/
def rtRegion (fuel : Nat) (env : RtEnv) : List RtEvent × Option Int :=
  let pre := [RtEvent.callInit env.initRet, RtEvent.callSetParam env.setParamRet,
    RtEvent.callTaskModeRT env.modeRTRet]
  let l := rtLoop fuel ⟨env.packets, 0, 0, env.vsi⟩
  if l.2.1 then
    (pre ++ l.1 ++ [RtEvent.callTaskModeBG env.modeBGRet, RtEvent.cleanup], some 0)
  else
    (pre ++ l.1, none)

def isSleep : RtEvent → Bool
  | RtEvent.sleepNextPeriod => true
  | _ => false

/-- Number of sleep_next_period calls in a trace. -/
def sleepCount (t : List RtEvent) : Nat := t.countP isSleep

def isBG : RtEvent → Bool
  | RtEvent.callTaskModeBG _ => true
  | _ => false

/-- Number of task_mode(BACKGROUND_TASK) calls in a trace. -/
def bgCount (t : List RtEvent) : Nat := t.countP isBG

/-- Number of successful task_mode(LITMUS_RT_TASK) calls in a trace. -/
def modeRTOkCount (t : List RtEvent) : Nat :=
  t.countP fun e => e == RtEvent.callTaskModeRT 0

/-- Projection of a trace event to its wait and job content: true for a
sleep_next_period call, false for a job invocation, dropped otherwise. -/
def wjTag : RtEvent → Option Bool
  | RtEvent.sleepNextPeriod => some true
  | RtEvent.jobRun _ => some false
  | _ => none

/-- The wait and job events of a trace, in order. -/
def wjList (t : List RtEvent) : List Bool := t.filterMap wjTag

/-- Strict alternation of a Boolean sequence starting with b. -/
def altFrom : Bool → List Bool → Bool
  | _, [] => true
  | b, x :: xs => (x == b) && altFrom (!b) xs

/-- Budget-overrun policy as set in base_task.c line 92. -/
inductive BudgetPolicy where
  | noEnforcement
  deriving DecidableEq

/-- Task class as set in base_task.c line 95. -/
inductive TaskClass where
  | rtClassSoft
  deriving DecidableEq

/-- The rt_task parameter block filled in base_task.c lines 86-98. -/
structure RtTaskParam where
  exec_cost : Int
  period : Int
  relative_deadline : Int
  budget_policy : BudgetPolicy
  cls : TaskClass
  priority : Int
  deriving DecidableEq

/-- Milliseconds to nanoseconds, as the ms2ns helper of liblitmus. -/
def ms2ns (ms : Int) : Int := ms * 1000000

/-- The parameter block main builds (base_task.c lines 86-98):
EXEC_COST 10 ms, PERIOD 100 ms, RELATIVE_DEADLINE 100 ms, NO_ENFORCEMENT,
RT_CLASS_SOFT, and the lowest liblitmus priority, whose numeric value is
library-defined and passed in here. -/
def setupParam (lowestPriority : Int) : RtTaskParam :=
  ⟨ms2ns 10, ms2ns 100, ms2ns 100, BudgetPolicy.noEnforcement,
    TaskClass.rtClassSoft, lowestPriority⟩

/-- The stream-selection loop of main (base_task.c lines 125-130): the
index of the first stream whose codec type is AVMEDIA_TYPE_VIDEO, or -1
when none exists. A stream is modelled by whether its codec type is
AVMEDIA_TYPE_VIDEO. -/
def findVideoFrom : Nat → List Bool → Int
  | _, [] => -1
  | i, true :: _ => (i : Int)
  | i, false :: rest => findVideoFrom (i + 1) rest

/-- The value the stream-selection loop leaves in vsi. -/
def findFirstVideo (streams : List Bool) : Int := findVideoFrom 0 streams

/-- Failure mode of the stream-selection check. -/
inductive SetupError where
  | noStreamFound
  deriving DecidableEq

/-- The stream-selection check of main (base_task.c lines 124-134). The
condition on line 131 is written as an assignment, vsi = -1: it stores -1
into vsi, and the value tested is that stored -1, which is nonzero, so the
branch that prints the no-stream diagnostic and returns -1 is taken on
every input, and the index computed by the loop is dead at that point. -/
def selectStream (streams : List Bool) : Except SetupError Int :=
  let _loopVsi := findFirstVideo streams
  let vsi : Int := -1
  if vsi = 0 then Except.ok vsi else Except.error SetupError.noStreamFound

/-- Events of the setup portion of main, up to the point where the
scheduler connection would begin (base_task.c lines 106-160). -/
inductive MainEvent where
  | usageMsg
  | registerAll
  | openInput
  | findStreamInfo
  | streamSelect
  | findDecoder
  | openCodec
  | allocFrames
  | fillBuffer
  | connectSched
  deriving DecidableEq

/-- Setup portion of main (base_task.c lines 106-160): the argc check, the
libav input and codec setup including the stream-selection check, and
entry into the scheduler-connection code. The Boolean flags say whether
the external libav calls succeed. The result is the event trace and some
exit status if main returns during setup; none means setup fell through to
the CALL of init_litmus. -/
def mainPre (argc : Nat) (openOk findOk : Bool) (streams : List Bool)
    (codecFound codecOpenOk frameOk : Bool) : List MainEvent × Option Int :=
  if argc < 2 then
    ([MainEvent.usageMsg], some 0)
  else if !openOk then
    ([MainEvent.registerAll, MainEvent.openInput], some (-1))
  else if !findOk then
    ([MainEvent.registerAll, MainEvent.openInput, MainEvent.findStreamInfo], some (-1))
  else
    match selectStream streams with
    | Except.error _ =>
        ([MainEvent.registerAll, MainEvent.openInput, MainEvent.findStreamInfo,
          MainEvent.streamSelect], some (-1))
    | Except.ok _ =>
        if !codecFound then
          ([MainEvent.registerAll, MainEvent.openInput, MainEvent.findStreamInfo,
            MainEvent.streamSelect, MainEvent.findDecoder], some (-1))
        else if !codecOpenOk then
          ([MainEvent.registerAll, MainEvent.openInput, MainEvent.findStreamInfo,
            MainEvent.streamSelect, MainEvent.findDecoder, MainEvent.openCodec], some (-1))
        else if !frameOk then
          ([MainEvent.registerAll, MainEvent.openInput, MainEvent.findStreamInfo,
            MainEvent.streamSelect, MainEvent.findDecoder, MainEvent.openCodec,
            MainEvent.allocFrames], some (-1))
        else
          ([MainEvent.registerAll, MainEvent.openInput, MainEvent.findStreamInfo,
            MainEvent.streamSelect, MainEvent.findDecoder, MainEvent.openCodec,
            MainEvent.allocFrames, MainEvent.fillBuffer, MainEvent.connectSched], none)

/-- Number of scheduler-connection entries in a setup trace. -/
def connectCount (t : List MainEvent) : Nat :=
  t.countP fun e => e == MainEvent.connectSched

/-- A producer already at end-of-stream: av_read_frame fails at once. -/
def sEos : JobState := ⟨[], 0, 0, 0⟩

/-- Eleven packets that do not belong to the selected video stream. -/
def s11 : JobState := ⟨List.replicate 11 ⟨1, false⟩, 0, 0, 0⟩

/-- One video packet whose decode finishes a frame. -/
def sOne : JobState := ⟨[⟨0, true⟩], 0, 0, 0⟩

/-- A video packet of the selected stream whose decode finishes. -/
def vidPacket : Packet := ⟨0, true⟩

/-- The scenario producer: 25 video items, then end-of-stream. -/
def s25 : JobState := ⟨List.replicate 25 vidPacket, 0, 0, 0⟩

/-- The scenario environment: all scheduler calls succeed, 25 items. -/
def env25 : RtEnv := ⟨0, 0, 0, 0, 0, List.replicate 25 vidPacket⟩

/-- Environment in which init_litmus fails and everything else succeeds. -/
def envInitFail : RtEnv := ⟨-1, 0, 0, 0, 0, []⟩

/-- Environment in which task_mode(LITMUS_RT_TASK) fails. -/
def envModeFail : RtEnv := ⟨0, 0, -1, 0, 0, []⟩

theorem job_ret_zero (s : JobState) : (job s).ret = 0 := rfl

theorem packetEvents_read (v : Int) (p : Packet) : readCount (packetEvents v p) = 0 := by
  cases hb : p.stream_index == v <;> cases hf : p.finishes <;>
    simp [packetEvents, hb, hf, readCount, List.countP_cons, isRead]

theorem jobLoop_read_le (v : Int) :
    ∀ (ps : List Packet) (rem : Nat), readCount (jobLoop v rem ps).1 ≤ rem + 1 := by
  intro ps
  induction ps with
  | nil =>
      intro rem
      simp [jobLoop, readCount, List.countP_cons, isRead]
  | cons p rest ih =>
      intro rem
      cases rem with
      | zero => simp [jobLoop, readCount, List.countP_cons, isRead]
      | succ r =>
          have h1 := ih (Nat.succ r - stepDec v p)
          have h2 : Nat.succ r - stepDec v p ≤ r := by
            unfold stepDec
            split <;> omega
          have h3 := packetEvents_read v p
          simp only [jobLoop, readCount, List.countP_cons, List.countP_append, isRead,
            if_true] at h1 h3 ⊢
          omega

theorem packetEvents_scale (v : Int) (p : Packet) (c : Option Unit)
    (h : JobEvent.scale c ∈ packetEvents v p) : c = none := by
  cases hb : p.stream_index == v <;> cases hf : p.finishes <;>
    simp [packetEvents, hb, hf, img_convert_ctx] at h
  all_goals exact h

theorem jobLoop_scale_none (v : Int) :
    ∀ (ps : List Packet) (rem : Nat) (c : Option Unit),
      JobEvent.scale c ∈ (jobLoop v rem ps).1 → c = none := by
  intro ps
  induction ps with
  | nil =>
      intro rem c h
      simp [jobLoop] at h
  | cons p rest ih =>
      intro rem c h
      cases rem with
      | zero => simp [jobLoop] at h
      | succ r =>
          simp [jobLoop, List.mem_cons, List.mem_append] at h
          rcases h with h | h
          · exact packetEvents_scale v p c h
          · exact ih _ c h

theorem rtLoop_no_exit (fuel : Nat) : ∀ s : JobState, (rtLoop fuel s).2.1 = false := by
  induction fuel with
  | zero => intro s; rfl
  | succ n ih => intro s; simp [rtLoop, job_ret_zero, ih]

theorem rtRegion_eq (fuel : Nat) (env : RtEnv) :
    rtRegion fuel env =
      ([RtEvent.callInit env.initRet, RtEvent.callSetParam env.setParamRet,
        RtEvent.callTaskModeRT env.modeRTRet] ++
          (rtLoop fuel ⟨env.packets, 0, 0, env.vsi⟩).1, none) := by
  simp [rtRegion, rtLoop_no_exit]

theorem rtRegion_none (fuel : Nat) (env : RtEnv) : (rtRegion fuel env).2 = none := by
  rw [rtRegion_eq]

theorem rtLoop_bg (fuel : Nat) : ∀ s : JobState, bgCount (rtLoop fuel s).1 = 0 := by
  induction fuel with
  | zero => intro s; rfl
  | succ n ih =>
      intro s
      have h := ih ⟨(job s).packets, (job s).ind, (job s).index, s.vsi⟩
      simp only [bgCount] at h
      simp [rtLoop, job_ret_zero, bgCount, List.countP_cons, isBG, h]

theorem rtLoop_alt (fuel : Nat) :
    ∀ s : JobState, altFrom true (wjList (rtLoop fuel s).1) = true := by
  induction fuel with
  | zero => intro s; rfl
  | succ n ih =>
      intro s
      have h := ih ⟨(job s).packets, (job s).ind, (job s).index, s.vsi⟩
      simp only [wjList] at h
      simp [rtLoop, job_ret_zero, wjList, wjTag, altFrom, h]

/-- C1: the claim says that when the producer signals permanent
end-of-stream, the job invocation returns the exit signal 1 and the
runtime then transitions to Background with no further sleep_next_period
calls. On the code this fails: job returns 0 on its only path, so at
end-of-stream it still reports continue, and the loop keeps calling
sleep_next_period, shown here by two waits occurring in the two iterations
after the stream is already exhausted. -/
theorem c1_eos_job_returns_continue :
    (job sEos).ret = 0 ∧ sleepCount (rtLoop 2 sEos).1 = 2 :=
  ⟨rfl, by decide⟩

/-- C2: the claim says task_mode(BACKGROUND_TASK) is called exactly once
on every path out of the RealTime state. On the code no such path exists:
since job always returns 0 the do-while loop never exits, so for every
fuel bound and every environment the real-time section never returns and
its trace contains zero background-transition calls. -/
theorem c2_no_exit_from_realtime :
    ∀ (fuel : Nat) (env : RtEnv),
      (rtRegion fuel env).2 = none ∧ bgCount (rtRegion fuel env).1 = 0 := by
  intro fuel env
  rw [rtRegion_eq]
  refine ⟨rfl, ?_⟩
  have h := rtLoop_bg fuel ⟨env.packets, 0, 0, env.vsi⟩
  simp only [bgCount] at h
  simp [bgCount, List.countP_append, List.countP_cons, isBG, h]

/-- C3 counterexample: the claim says sleep_next_period is never called
before a successful task_mode(LITMUS_RT_TASK). In the environment where
that call fails with -1, the trace of the real-time section contains a
sleep_next_period call although it contains no successful
task_mode(LITMUS_RT_TASK) call at all. -/
theorem c3_wait_after_failed_enter :
    RtEvent.sleepNextPeriod ∈ (rtRegion 1 envModeFail).1 ∧
      modeRTOkCount (rtRegion 1 envModeFail).1 = 0 :=
  ⟨by decide, by decide⟩

/-- C3 amended: every trace of the real-time section starts with the
init_litmus, set_rt_task_param and task_mode(LITMUS_RT_TASK) attempts, so
the enter-real-time attempt, successful or not, precedes every
sleep_next_period call; the wait and job events strictly alternate
starting with a wait; and no background transition ever appears in the
trace, so no job runs after one. -/
theorem c3_alternation_after_enter_attempt :
    ∀ (fuel : Nat) (env : RtEnv),
      (rtRegion fuel env).1.take 3 =
        [RtEvent.callInit env.initRet, RtEvent.callSetParam env.setParamRet,
          RtEvent.callTaskModeRT env.modeRTRet] ∧
      altFrom true (wjList (rtRegion fuel env).1) = true ∧
      bgCount (rtRegion fuel env).1 = 0 := by
  intro fuel env
  rw [rtRegion_eq]
  refine ⟨rfl, ?_, ?_⟩
  · have h := rtLoop_alt fuel ⟨env.packets, 0, 0, env.vsi⟩
    simp only [wjList] at h
    simp [wjList, List.filterMap_append, List.filterMap_cons, wjTag, h]
  · have h := rtLoop_bg fuel ⟨env.packets, 0, 0, env.vsi⟩
    simp only [bgCount] at h
    simp [bgCount, List.countP_append, List.countP_cons, isBG, h]

/-- C4 counterexample: the claim bounds the av_read_frame requests of one
job invocation by 10. With eleven packets that do not belong to the video
stream, one invocation issues 11 requests: ten reads in the ten admitted
iterations plus the read performed by the final evaluation of the loop
condition. -/
theorem c4_eleven_reads :
    readCount (job s11).events = 11 ∧ 10 < readCount (job s11).events :=
  ⟨by decide, by decide⟩

/-- C4 amended: one invocation of job issues at most 11 av_read_frame
requests, the 10-iteration batch bound plus one extra read consumed by the
final loop-condition evaluation; the drain is bounded for every producer
state. -/
theorem c4_reads_bounded : ∀ s : JobState, readCount (job s).events ≤ 11 :=
  fun s => jobLoop_read_le s.vsi s.packets 10

/-- C5: the claim predicts exactly 3 job invocations with batches of 10,
10 and 5 on a 25-item producer, the third returning the exit signal, then
a Background transition and exit 0. On the code the parameter block does
match the scenario, but the third invocation still returns 0, the first
invocation performs only 5 decode-and-scale operations while consuming 6
packets, and for every fuel bound the real-time section never returns, so
no Background transition or exit 0 ever happens. -/
theorem c5_scenario_never_stops :
    (∀ p : Int, setupParam p =
      ⟨ms2ns 10, ms2ns 100, ms2ns 100, BudgetPolicy.noEnforcement, TaskClass.rtClassSoft, p⟩) ∧
    (job (jobNext (jobNext s25))).ret = 0 ∧
    scaleCount (job s25).events = 5 ∧
    ∀ fuel : Nat, (rtRegion fuel env25).2 = none :=
  ⟨fun p => rfl, rfl, by decide, fun fuel => rtRegion_none fuel env25⟩

/-- C6: the claim says the process exits non-zero whenever a fatal error
occurs during init_litmus, set_rt_task_param or task_mode. On the code the
CALL macro only prints a diagnostic: with init_litmus failing, the failing
return value is recorded in the trace, execution continues into the job
loop, and for every fuel bound the real-time section never returns at all,
so no non-zero exit happens. -/
theorem c6_fatal_error_swallowed :
    ∀ fuel : Nat, (rtRegion fuel envInitFail).2 = none ∧
      RtEvent.callInit (-1) ∈ (rtRegion fuel envInitFail).1 := by
  intro fuel
  rw [rtRegion_eq]
  exact ⟨rfl, by simp [envInitFail]⟩

/-- C7: the claim says setup fails with the no-stream diagnostic if and
only if no video stream exists, proceeding otherwise. On the code the
check is the assignment vsi = -1, whose value -1 is nonzero, so the error
branch is taken for every stream list, even for a list whose first stream
is video and for which the selection loop had computed index 0. -/
theorem c7_no_stream_always :
    (∀ streams : List Bool,
      selectStream streams = Except.error SetupError.noStreamFound) ∧
    findFirstVideo [true] = 0 :=
  ⟨fun _ => rfl, rfl⟩

/-- C8 counterexample: the claim says a missing argument exits with a
non-zero status. With argc = 1 the setup prints the usage message and
returns status 0, and the trace never reaches the scheduler-connection
code. -/
theorem c8_usage_exit_zero :
    (mainPre 1 true true [true] true true true).2 = some 0 ∧
      MainEvent.usageMsg ∈ (mainPre 1 true true [true] true true true).1 ∧
      connectCount (mainPre 1 true true [true] true true true).1 = 0 :=
  ⟨by decide, by decide, by decide⟩

/-- C8 amended: when the program is invoked without the positional input
argument, it prints the usage message and exits with status 0, without
attempting connection or admission to the scheduler. -/
theorem c8_usage_no_admission :
    ∀ (argc : Nat) (openOk findOk : Bool) (streams : List Bool) (c1 c2 c3 : Bool),
      argc < 2 →
      mainPre argc openOk findOk streams c1 c2 c3 = ([MainEvent.usageMsg], some 0) := by
  intro argc openOk findOk streams c1 c2 c3 h
  simp [mainPre, h]

/-- C8 witness: argc = 1 is below 2 and yields exactly the usage trace
with exit status 0. -/
theorem c8_usage_witness :
    1 < 2 ∧ mainPre 1 true true [] true true true = ([MainEvent.usageMsg], some 0) :=
  ⟨by decide, c8_usage_no_admission 1 true true [] true true true (by decide)⟩

/-- C9: the global ind is never modified by job: after any invocation it
equals its value before the call, while the counter increased by 10 at the
end of job is the distinct variable index; hence every invocation starts
its loop at the same base index. -/
theorem c9_ind_unchanged :
    ∀ s : JobState, (job s).ind = s.ind ∧ (job s).index = s.index + 10 :=
  fun _ => ⟨rfl, rfl⟩

/-- C10: img_convert_ctx is initialized to NULL and never assigned, and
every sws_scale call emitted by any invocation of job passes exactly this
context, so the scaler receives a null context argument on every call. -/
theorem c10_scale_ctx_null :
    img_convert_ctx = none ∧
    ∀ (s : JobState) (c : Option Unit), JobEvent.scale c ∈ (job s).events → c = none :=
  ⟨rfl, fun s c h => jobLoop_scale_none s.vsi s.packets 10 c h⟩

/-- C10 witness: on a producer with one finishing video packet a scale
call with the global context does occur, and that context is none. -/
theorem c10_scale_witness :
    JobEvent.scale img_convert_ctx ∈ (job sOne).events ∧ img_convert_ctx = none :=
  ⟨by decide, c10_scale_ctx_null.2 sOne img_convert_ctx (by decide)⟩

end BaseTask
